import Mathlib

/-!
Verification of the `vbox_cli` command dispatcher (`src/vbox_cli.py`).

The program is a thin CLI wrapper around an external `vboxmanage` binary:
it builds an `argparse` argument parser with four subcommands
(`create`, `delete`, `info`, `status`), parses `sys.argv[1:]`, re-dispatches
on `sys.argv[1]` to one of `opt_create` / `opt_delete` / `opt_info` /
`opt_status`, each of which spawns exactly one external process with
`subprocess.run(..., check=True)`.

The embedding below models:
  * `str.split()` (Python whitespace splitting) as `wsTokens`;
  * the semantics of the concrete `argparse` parser configured in `main`
    (subcommand choice, options with one value, `store_const` options,
    required options, required and non-required mutually exclusive groups,
    the `--opt=value` spelling, the rule that an option-like token is not
    consumed as an option value, `-h`/`--help`, and the negative-number
    exception) as the functions `createAux`, `deleteAux`, `infoAux`,
    `statusAux` and `parse`.  Long-option abbreviation (`--nam`) and
    attached short-option values (`-gX`) are not modelled; they only
    enlarge the set of accepted spellings of the same commands.
  * the dispatch functions `opt_create`, `opt_delete`, `opt_info`,
    `opt_status` and the `main` pipeline as `main_model`, whose `Outcome`
    records what the process does: spawn a given argument list, exit with
    an argparse usage error (exit code 2), print help (exit 0), crash with
    an uncaught exception (exit 1), or print the `//TODO` placeholder and
    exit 0.  `exitCode` maps an outcome and the external tool's exit code
    oracle to the final process exit status: `subprocess.run(check=True)`
    raises `CalledProcessError` on a non-zero external exit, which is
    uncaught and terminates Python with exit code 1.
-/

/-- Python `str.isspace`-style whitespace relevant to `str.split()`
(ASCII whitespace; the practical CLI alphabet). -/
def wsChar (c : Char) : Bool :=
  c = ' ' || c = '\t' || c = '\n' || c = '\r' || c = '\x0b' || c = '\x0c'

/-- Accumulator worker for `str.split()`: `acc` holds the (reversed)
characters of the token currently being read. -/
def tokensAux : List Char → List Char → List String
  | [], acc => if acc.isEmpty then [] else [String.mk acc.reverse]
  | c :: cs, acc =>
    if wsChar c then
      if acc.isEmpty then tokensAux cs [] else String.mk acc.reverse :: tokensAux cs []
    else
      tokensAux cs (c :: acc)

/-- Python `s.split()` with no separator: split on runs of whitespace,
discarding empty pieces. -/
def wsTokens (s : String) : List String := tokensAux s.data []

/-- A string that `str.split()` keeps whole: non-empty and free of
whitespace characters. -/
def isToken (s : String) : Prop :=
  s.data ≠ [] ∧ ∀ c ∈ s.data, wsChar c = false

instance (s : String) : Decidable (isToken s) := by
  unfold isToken; infer_instance

/-- Does the list contain the element `a` immediately followed by `b`?
Used to state "the invocation contains flag `a` followed by value `b`". -/
def hasAdjPair (a b : String) : List String → Bool
  | x :: y :: rest => (x = a && y = b) || hasAdjPair a b (y :: rest)
  | _ => false

/-! ## The argparse model -/

/-- Argparse's `_negative_number_matcher` applied to the characters after
the leading `-`: `^-\d+$` or `^-\d*\.\d+$`. -/
def negNumberTail (l : List Char) : Bool :=
  match l.splitOn '.' with
  | [d] => !d.isEmpty && d.all Char.isDigit
  | [a, b] => a.all Char.isDigit && !b.isEmpty && b.all Char.isDigit
  | _ => false

/-- Argparse refuses to consume an option-like token as the value of an
option expecting one argument ("expected one argument").  A token is
option-like when it starts with `-`, has further characters, and does not
look like a negative number (this parser has no numeric-looking option
strings). -/
def optionLike (s : String) : Bool :=
  match s.data with
  | '-' :: c :: rest => !negNumberTail (c :: rest)
  | _ => false

/-- The `--flag=value` spelling: if `t` is `flag ++ "=" ++ v`, return `v`. -/
def eqFormVal (t flag : String) : Option String :=
  if (flag.data ++ ['=']).isPrefixOf t.data then
    some (String.mk (t.data.drop (flag.data.length + 1)))
  else
    none

/-- The `-h` / `--help` option added automatically by argparse. -/
def isHelp (t : String) : Bool := t = "-h" || t = "--help"

/-- Namespace produced by the `create` subparser
(`dest` names from the source). -/
structure CreateArgs where
  vbox_vm_name : Option String
  vbox_vm_groups : Option String
  vbox_vm_os : Option String
deriving DecidableEq

/-- Namespace produced by the `delete` subparser: both `--name` and
`--uuid` store into the single dest `vbox_vm_identifier`. -/
structure DeleteArgs where
  vbox_vm_identifier : Option String
deriving DecidableEq

/-- Namespace produced by the `info` subparser. -/
structure InfoArgs where
  vbox_vm_identifier : Option String
deriving DecidableEq

/-- Namespace produced by the `status` subparser: `--start`/`--stop` are
`store_const` actions into `vbox_vm_action`. -/
structure StatusArgs where
  vbox_vm_action : Option String
  vbox_vm_identifier : Option String
deriving DecidableEq

/-- A parsed command: tagged variant over the four subcommands, plus the
case where `parse_args` succeeded with no subcommand at all (the
subparsers argument is not required). -/
inductive Command where
  | create (a : CreateArgs)
  | delete (a : DeleteArgs)
  | info (a : InfoArgs)
  | status (a : StatusArgs)
  | noSubcommand
deriving DecidableEq

/-- Result of `parser.parse_args()`: a namespace, an argparse error
(usage message on stderr, exit code 2), or help output (exit code 0). -/
inductive ParseResult where
  | ok (c : Command)
  | usageError
  | helpExit
deriving DecidableEq

/-- Working state of the `create` subparser. -/
structure CreateSt where
  name : Option String
  groups : Option String
  os : Option String
deriving DecidableEq

/-- Working state of the `delete` subparser; `seenName`/`seenUuid` record
which members of the mutually exclusive group have appeared. -/
structure DeleteSt where
  ident : Option String
  seenName : Bool
  seenUuid : Bool
deriving DecidableEq

/-- Working state of the `info` subparser. -/
structure InfoSt where
  ident : Option String
  seenName : Bool
  seenUuid : Bool
deriving DecidableEq

/-- Working state of the `status` subparser: two mutually exclusive
groups, both required. -/
structure StatusSt where
  action : Option String
  ident : Option String
  seenStart : Bool
  seenStop : Bool
  seenName : Bool
  seenUuid : Bool
deriving DecidableEq

/-- Result of running one subparser. -/
inductive SubRes (σ : Type) where
  | ok (st : σ)
  | usage
  | help
deriving DecidableEq

/-- The `create` subparser: `--name` required, `-g`/`--groups` and
`-o`/`--operating-system` optional, no mutual exclusion. -/
def createAux : List String → CreateSt → SubRes CreateSt
  | [], st => if st.name.isSome then .ok st else .usage
  | t :: rest, st =>
    if isHelp t then .help
    else if t = "--name" then
      match rest with
      | [] => .usage
      | v :: rest' =>
        if optionLike v then .usage else createAux rest' { st with name := some v }
    else if t = "-g" || t = "--groups" then
      match rest with
      | [] => .usage
      | v :: rest' =>
        if optionLike v then .usage else createAux rest' { st with groups := some v }
    else if t = "-o" || t = "--operating-system" then
      match rest with
      | [] => .usage
      | v :: rest' =>
        if optionLike v then .usage else createAux rest' { st with os := some v }
    else
      match eqFormVal t "--name" with
      | some v => createAux rest { st with name := some v }
      | none =>
        match eqFormVal t "--groups" with
        | some v => createAux rest { st with groups := some v }
        | none =>
          match eqFormVal t "--operating-system" with
          | some v => createAux rest { st with os := some v }
          | none => .usage

/-- The `delete` subparser: a required mutually exclusive group
`--name` | `--uuid`, both storing into `vbox_vm_identifier`. -/
def deleteAux : List String → DeleteSt → SubRes DeleteSt
  | [], st => if st.seenName || st.seenUuid then .ok st else .usage
  | t :: rest, st =>
    if isHelp t then .help
    else if t = "--name" then
      match rest with
      | [] => .usage
      | v :: rest' =>
        if optionLike v then .usage
        else if st.seenUuid then .usage
        else deleteAux rest' { st with ident := some v, seenName := true }
    else if t = "--uuid" then
      match rest with
      | [] => .usage
      | v :: rest' =>
        if optionLike v then .usage
        else if st.seenName then .usage
        else deleteAux rest' { st with ident := some v, seenUuid := true }
    else
      match eqFormVal t "--name" with
      | some v =>
        if st.seenUuid then .usage
        else deleteAux rest { st with ident := some v, seenName := true }
      | none =>
        match eqFormVal t "--uuid" with
        | some v =>
          if st.seenName then .usage
          else deleteAux rest { st with ident := some v, seenUuid := true }
        | none => .usage

/-- The `info` subparser: like `delete` but the group is not required. -/
def infoAux : List String → InfoSt → SubRes InfoSt
  | [], st => .ok st
  | t :: rest, st =>
    if isHelp t then .help
    else if t = "--name" then
      match rest with
      | [] => .usage
      | v :: rest' =>
        if optionLike v then .usage
        else if st.seenUuid then .usage
        else infoAux rest' { st with ident := some v, seenName := true }
    else if t = "--uuid" then
      match rest with
      | [] => .usage
      | v :: rest' =>
        if optionLike v then .usage
        else if st.seenName then .usage
        else infoAux rest' { st with ident := some v, seenUuid := true }
    else
      match eqFormVal t "--name" with
      | some v =>
        if st.seenUuid then .usage
        else infoAux rest { st with ident := some v, seenName := true }
      | none =>
        match eqFormVal t "--uuid" with
        | some v =>
          if st.seenName then .usage
          else infoAux rest { st with ident := some v, seenUuid := true }
        | none => .usage

/-- The `status` subparser: required group `--start` | `--stop`
(`store_const` of the constants `"start"` / `"stop"`) and required group
`--name` | `--uuid`. -/
def statusAux : List String → StatusSt → SubRes StatusSt
  | [], st =>
    if (st.seenStart || st.seenStop) && (st.seenName || st.seenUuid) then .ok st else .usage
  | t :: rest, st =>
    if isHelp t then .help
    else if t = "--start" then
      if st.seenStop then .usage
      else statusAux rest { st with action := some "start", seenStart := true }
    else if t = "--stop" then
      if st.seenStart then .usage
      else statusAux rest { st with action := some "stop", seenStop := true }
    else if t = "--name" then
      match rest with
      | [] => .usage
      | v :: rest' =>
        if optionLike v then .usage
        else if st.seenUuid then .usage
        else statusAux rest' { st with ident := some v, seenName := true }
    else if t = "--uuid" then
      match rest with
      | [] => .usage
      | v :: rest' =>
        if optionLike v then .usage
        else if st.seenName then .usage
        else statusAux rest' { st with ident := some v, seenUuid := true }
    else
      match eqFormVal t "--name" with
      | some v =>
        if st.seenUuid then .usage
        else statusAux rest { st with ident := some v, seenName := true }
      | none =>
        match eqFormVal t "--uuid" with
        | some v =>
          if st.seenName then .usage
          else statusAux rest { st with ident := some v, seenUuid := true }
        | none => .usage

/-- Initial state of the `create` subparser (all dests default `None`). -/
def createSt0 : CreateSt := ⟨none, none, none⟩

/-- Initial state of the `delete` subparser. -/
def deleteSt0 : DeleteSt := ⟨none, false, false⟩

/-- Initial state of the `info` subparser. -/
def infoSt0 : InfoSt := ⟨none, false, false⟩

/-- Initial state of the `status` subparser. -/
def statusSt0 : StatusSt := ⟨none, none, false, false, false, false⟩

/-- Package a `create` subparser run as a `parse_args` result. -/
def liftCreate : SubRes CreateSt → ParseResult
  | .ok st => .ok (.create ⟨st.name, st.groups, st.os⟩)
  | .usage => .usageError
  | .help => .helpExit

/-- Package a `delete` subparser run as a `parse_args` result. -/
def liftDelete : SubRes DeleteSt → ParseResult
  | .ok st => .ok (.delete ⟨st.ident⟩)
  | .usage => .usageError
  | .help => .helpExit

/-- Package an `info` subparser run as a `parse_args` result. -/
def liftInfo : SubRes InfoSt → ParseResult
  | .ok st => .ok (.info ⟨st.ident⟩)
  | .usage => .usageError
  | .help => .helpExit

/-- Package a `status` subparser run as a `parse_args` result. -/
def liftStatus : SubRes StatusSt → ParseResult
  | .ok st => .ok (.status ⟨st.action, st.ident⟩)
  | .usage => .usageError
  | .help => .helpExit

/-- `parser.parse_args()` on the user argument vector `sys.argv[1:]`:
an empty vector parses successfully with no subcommand (the subparsers
argument is optional); otherwise the first token must be a subcommand
name (or help), and the corresponding subparser consumes the rest. -/
def parse : List String → ParseResult
  | [] => .ok .noSubcommand
  | t :: rest =>
    if isHelp t then .helpExit
    else if t = "create" then liftCreate (createAux rest createSt0)
    else if t = "delete" then liftDelete (deleteAux rest deleteSt0)
    else if t = "info" then liftInfo (infoAux rest infoSt0)
    else if t = "status" then liftStatus (statusAux rest statusSt0)
    else .usageError

/-! ## The dispatch functions and the main pipeline -/

/-- Observable behaviour of one program invocation. -/
inductive Outcome where
  /-- Spawns exactly one external process with this argument list. -/
  | run (cmd : List String)
  /-- Argparse error: usage message on stderr, exit code 2. -/
  | usage
  /-- Help printed, exit code 0. -/
  | help
  /-- Uncaught `IndexError` from `sys.argv[1]`: traceback, exit code 1. -/
  | indexErrorCrash
  /-- Any other uncaught exception: traceback, exit code 1. -/
  | otherCrash
  /-- Prints the `'//TODO: proper error handling'` placeholder, exit 0. -/
  | todoPrint
deriving DecidableEq

/-- The command string assembled by `opt_create` before `.split()`:
`'vboxmanage createvm --register --name ' + name`, then
`' --groups ' + groups` if groups is not `None`, `elif`
`' --ostype ' + os` if os is not `None`. -/
def create_cmd_str (name : String) (groups os : Option String) : String :=
  let s := "vboxmanage createvm --register --name " ++ name
  match groups with
  | some g => s ++ " --groups " ++ g
  | none =>
    match os with
    | some o => s ++ " --ostype " ++ o
    | none => s

/-- The argument list `opt_create` passes to `subprocess.run`:
`vbox_cmd_str.split()`. -/
def opt_create_argv (name : String) (groups os : Option String) : List String :=
  wsTokens (create_cmd_str name groups os)

/-- `opt_create(args)`: string concatenation would raise `TypeError` on a
`None` name (unreachable after a successful parse, since `--name` is
required). -/
def opt_create (a : CreateArgs) : Outcome :=
  match a.vbox_vm_name with
  | some n => .run (opt_create_argv n a.vbox_vm_groups a.vbox_vm_os)
  | none => .otherCrash

/-- The literal argument list built by `opt_delete`. -/
def delete_argv (i : String) : List String :=
  ["vboxmanage", "unregistervm", "--delete", i]

/-- `opt_delete(args)`: a `None` identifier in the list would make
`subprocess.run` raise `TypeError` (unreachable after a successful
parse, since the identifier group is required). -/
def opt_delete (a : DeleteArgs) : Outcome :=
  match a.vbox_vm_identifier with
  | some i => .run (delete_argv i)
  | none => .otherCrash

/-- The argument list built by `opt_info`: `showvminfo --details` for a
specific identifier, `list vms` when the identifier is `None`. -/
def info_argv : Option String → List String
  | some i => ["vboxmanage", "showvminfo", "--details", i]
  | none => ["vboxmanage", "list", "vms"]

/-- `opt_info(args)`. -/
def opt_info (a : InfoArgs) : Outcome :=
  .run (info_argv a.vbox_vm_identifier)

/-- The literal argument list built by the start branch of `opt_status`. -/
def startvm_argv (i : String) : List String :=
  ["vboxmanage", "startvm", i, "--type", "headless"]

/-- The literal argument list built by the stop branch of `opt_status`. -/
def controlvm_argv (i : String) : List String :=
  ["vboxmanage", "controlvm", i, "poweroff"]

/-- `opt_status(args)`: compares `args.vbox_vm_action` against the
constants `'start'` and `'stop'`; on any other value it prints the
`//TODO` placeholder. -/
def opt_status (a : StatusArgs) : Outcome :=
  if a.vbox_vm_action = some "start" then
    match a.vbox_vm_identifier with
    | some i => .run (startvm_argv i)
    | none => .otherCrash
  else if a.vbox_vm_action = some "stop" then
    match a.vbox_vm_identifier with
    | some i => .run (controlvm_argv i)
    | none => .otherCrash
  else .todoPrint

/-- The `if sys.argv[1] == 'create': ... elif ... else: print('//TODO')`
re-dispatch in `main`, given the first user argument `t`.  A mismatch
between `t` and the parsed namespace cannot occur (the namespace came
from the subparser selected by `t`); such branches would raise
`AttributeError` in Python. -/
def dispatchOn (t : String) (c : Command) : Outcome :=
  if t = "create" then
    match c with | .create a => opt_create a | _ => .otherCrash
  else if t = "delete" then
    match c with | .delete a => opt_delete a | _ => .otherCrash
  else if t = "info" then
    match c with | .info a => opt_info a | _ => .otherCrash
  else if t = "status" then
    match c with | .status a => opt_status a | _ => .otherCrash
  else .todoPrint

/-- The whole `main` pipeline on the user argument vector `sys.argv[1:]`:
`parse_args` runs first (argparse errors and help exit the process), then
`main` reads `sys.argv[1]` — an `IndexError` when no arguments were
given — and re-dispatches on it. -/
def main_model (argv : List String) : Outcome :=
  match parse argv with
  | .usageError => .usage
  | .helpExit => .help
  | .ok c =>
    match argv with
    | [] => .indexErrorCrash
    | t :: _ => dispatchOn t c

/-- Final process exit status of one invocation, given the exit code the
external tool would return for a spawned argument list.  `check=True`
turns a non-zero external exit into an uncaught `CalledProcessError`
(Python exits 1); argparse usage errors exit 2; uncaught exceptions
exit 1; help and the `//TODO` print path exit 0. -/
def exitCode (o : Outcome) (ext : List String → Nat) : Nat :=
  match o with
  | .run cmd => if ext cmd = 0 then 0 else 1
  | .usage => 2
  | .help => 0
  | .indexErrorCrash => 1
  | .otherCrash => 1
  | .todoPrint => 0

/-! ## Lemmas about `str.split()` -/

/-- String.mk is a left inverse of String.data. -/
theorem mk_data (s : String) : String.mk s.data = s := rfl

/-- Splitting at an explicit space is compositional. -/
theorem tokensAux_sep (xs : List Char) :
    ∀ (acc ys : List Char),
      tokensAux (xs ++ ' ' :: ys) acc = tokensAux xs acc ++ tokensAux ys [] := by
  induction xs with
  | nil =>
    intro acc ys
    have hws : wsChar ' ' = true := rfl
    by_cases h : acc.isEmpty <;> simp [tokensAux, hws, h]
  | cons c cs ih =>
    intro acc ys
    cases hc : wsChar c with
    | true =>
      by_cases h : acc.isEmpty <;> simp [tokensAux, hc, h, ih]
    | false =>
      simp [tokensAux, hc, ih]

/-- A run of non-whitespace characters forms a single token (appended to
whatever the accumulator holds). -/
theorem tokensAux_token (xs : List Char) :
    ∀ acc, xs ≠ [] → (∀ c ∈ xs, wsChar c = false) →
      tokensAux xs acc = [String.mk (acc.reverse ++ xs)] := by
  induction xs with
  | nil => intro acc h _; exact absurd rfl h
  | cons c cs ih =>
    intro acc _ hall
    have hc : wsChar c = false := hall c (by simp)
    by_cases hcs : cs = []
    · subst hcs
      simp [tokensAux, hc]
    · rw [show tokensAux (c :: cs) acc = tokensAux cs (c :: acc) by
        simp [tokensAux, hc]]
      rw [ih (c :: acc) hcs (fun d hd => hall d (by simp [hd]))]
      simp

/-- On a whitespace-free non-empty string, `str.split()` returns the
string itself as the only token. -/
theorem wsTokens_token (s : String) (h : isToken s) : wsTokens s = [s] := by
  unfold wsTokens
  rw [tokensAux_token s.data [] h.1 h.2]
  simp [mk_data]

/-- Every token produced by `str.split()` is free of whitespace. -/
theorem mem_tokensAux_no_ws (xs : List Char) :
    ∀ acc, (∀ c ∈ acc, wsChar c = false) →
      ∀ s ∈ tokensAux xs acc, ∀ c ∈ s.data, wsChar c = false := by
  induction xs with
  | nil =>
    intro acc hacc s hs
    by_cases h : acc.isEmpty
    · simp [tokensAux, h] at hs
    · simp [tokensAux, h] at hs
      subst hs
      intro c hcmem
      exact hacc c (by simpa using hcmem)
  | cons c cs ih =>
    intro acc hacc s hs
    cases hc : wsChar c with
    | true =>
      by_cases h : acc.isEmpty
      · simp only [tokensAux, hc, if_true, h] at hs
        exact ih [] (by simp) s hs
      · simp only [tokensAux, hc, if_true, h, Bool.false_eq_true, if_false,
          List.mem_cons] at hs
        rcases hs with hs | hs
        · subst hs
          intro d hdmem
          exact hacc d (by simpa using hdmem)
        · exact ih [] (by simp) s hs
    | false =>
      simp only [tokensAux, hc, Bool.false_eq_true, if_false] at hs
      refine ih (c :: acc) ?_ s hs
      intro d hd
      rcases List.mem_cons.mp hd with hd | hd
      · subst hd; exact hc
      · exact hacc d hd

/-- Splitting the base `createvm` command string with a whitespace-free
name yields the base argument list. -/
theorem opt_create_tokens_base (n : String) (hn : isToken n) :
    wsTokens ("vboxmanage createvm --register --name " ++ n)
      = ["vboxmanage", "createvm", "--register", "--name", n] := by
  unfold wsTokens
  rw [String.data_append,
    show ("vboxmanage createvm --register --name " : String).data
      = ("vboxmanage createvm --register --name" : String).data ++ [' '] from rfl,
    List.append_assoc,
    show ([' '] ++ n.data) = ' ' :: n.data from rfl,
    tokensAux_sep,
    tokensAux_token n.data [] hn.1 hn.2,
    show tokensAux ("vboxmanage createvm --register --name" : String).data []
      = ["vboxmanage", "createvm", "--register", "--name"] from rfl]
  simp [mk_data]

/-- Splitting the `createvm` command string extended by an option flag
and a whitespace-free value appends exactly two list elements. -/
theorem opt_create_tokens_opt (n v : String) (flag flagLit : String)
    (hn : isToken n) (hv : isToken v)
    (hfl : flag.data = ' ' :: (flagLit.data ++ [' ']))
    (hlit : tokensAux flagLit.data [] = [flagLit]) :
    wsTokens (("vboxmanage createvm --register --name " ++ n) ++ flag ++ v)
      = ["vboxmanage", "createvm", "--register", "--name", n, flagLit, v] := by
  unfold wsTokens
  simp only [String.data_append]
  rw [hfl, List.append_assoc,
    show (' ' :: (flagLit.data ++ [' '])) ++ v.data
      = ' ' :: ((flagLit.data ++ [' ']) ++ v.data) from rfl,
    tokensAux_sep,
    List.append_assoc,
    show ([' '] ++ v.data) = ' ' :: v.data from rfl,
    tokensAux_sep,
    tokensAux_token v.data [] hv.1 hv.2, hlit]
  have hbase := opt_create_tokens_base n hn
  unfold wsTokens at hbase
  rw [String.data_append] at hbase
  rw [hbase]
  simp [mk_data]

/-- Formalisation of claim C1 exactly as stated: the built `create`
invocation contains `--groups` followed by the groups value iff groups is
supplied, contains `--ostype` followed by the os value iff os is supplied
and groups is not, and with both supplied `--ostype` never appears after
`--groups` precedence.  (Definition written from the claim's words, to be
compared against the code's `opt_create_argv`.) -/
def createForwardsFlags (n : String) (g o : Option String) : Prop :=
  (∀ v, g = some v → hasAdjPair "--groups" v (opt_create_argv n g o) = true) ∧
  (g = none → ∀ v, hasAdjPair "--groups" v (opt_create_argv n g o) = false) ∧
  (∀ w, o = some w → g = none → hasAdjPair "--ostype" w (opt_create_argv n g o) = true) ∧
  ((o = none ∨ g ≠ none) → ∀ w, hasAdjPair "--ostype" w (opt_create_argv n g o) = false)

/-- C1 (claim as stated) is false: `create --name foo --groups ''` is a
valid Create command (argparse accepts the empty string as a value), yet
the built invocation `['vboxmanage', 'createvm', '--register', '--name',
'foo', '--groups']` ends in a dangling `--groups` flag that is not
followed by the supplied (empty) groups value. -/
theorem c1_counterexample :
    parse ["create", "--name", "foo", "--groups", ""]
        = .ok (.create ⟨some "foo", some "", none⟩) ∧
      opt_create_argv "foo" (some "") none
        = ["vboxmanage", "createvm", "--register", "--name", "foo", "--groups"] ∧
      ¬ createForwardsFlags "foo" (some "") none := by
  refine ⟨rfl, rfl, fun h => ?_⟩
  exact absurd (h.1 "" rfl) (by decide)

/-- C1 (amended): for valid Create inputs whose supplied values are
single non-empty whitespace-free tokens, the built invocation is exactly
the base list `['vboxmanage', 'createvm', '--register', '--name', name]`
extended by `['--groups', groups]` when groups is supplied (os-type is
never forwarded: groups precedence), else by `['--ostype', ostype]` when
os-type is supplied, else by nothing.  In particular it contains
`--groups` followed by the groups value iff groups is supplied, and
`--ostype` followed by the os-type value iff os-type is supplied and
groups is not. -/
theorem c1_amended (n : String) (g o : Option String) (hn : isToken n)
    (hg : ∀ v, g = some v → isToken v) (ho : ∀ w, o = some w → isToken w) :
    opt_create_argv n g o =
      ["vboxmanage", "createvm", "--register", "--name", n] ++
        (match g with
         | some v => ["--groups", v]
         | none =>
           match o with
           | some w => ["--ostype", w]
           | none => []) := by
  cases g with
  | some v =>
    show wsTokens (("vboxmanage createvm --register --name " ++ n) ++ " --groups " ++ v) = _
    rw [opt_create_tokens_opt n v " --groups " "--groups" hn (hg v rfl) rfl rfl]
    rfl
  | none =>
    cases o with
    | some w =>
      show wsTokens (("vboxmanage createvm --register --name " ++ n) ++ " --ostype " ++ w) = _
      rw [opt_create_tokens_opt n w " --ostype " "--ostype" hn (ho w rfl) rfl rfl]
      rfl
    | none =>
      show wsTokens ("vboxmanage createvm --register --name " ++ n) = _
      rw [opt_create_tokens_base n hn]
      rfl

/-- Witness for C1 (amended) at a concrete input: name, groups and
os-type all supplied as plain tokens; only `--groups` is forwarded. -/
theorem c1_amended_witness :
    opt_create_argv "vm1" (some "grp1") (some "Linux_64")
      = ["vboxmanage", "createvm", "--register", "--name", "vm1", "--groups", "grp1"] := by
  have h := c1_amended "vm1" (some "grp1") (some "Linux_64") (by decide)
    (fun v hv => by injection hv with h2; rw [← h2]; decide)
    (fun w hw => by injection hw with h2; rw [← h2]; decide)
  simpa using h

/-! ## Invariants of the subparsers -/

/-- Invariant maintained by the `delete` subparser: the two members of
the mutually exclusive group never have both been taken, and once one has
been taken the shared dest holds a value. -/
def deleteInv (st : DeleteSt) : Prop :=
  ¬(st.seenName = true ∧ st.seenUuid = true) ∧
  ((st.seenName = true ∨ st.seenUuid = true) → st.ident.isSome = true)

/-- A successful `delete` subparser run preserves the invariant and, by
the required-group check, has taken at least one group member. -/
theorem deleteAux_ok_inv (rest : List String) (st : DeleteSt) :
    ∀ st', deleteInv st → deleteAux rest st = .ok st' →
      deleteInv st' ∧ (st'.seenName = true ∨ st'.seenUuid = true) := by
  induction rest, st using deleteAux.induct
  all_goals intro st' hinv hok
  all_goals rw [deleteAux.eq_def] at hok
  all_goals try simp [*] at hok
  all_goals first
    | (subst hok
       exact ⟨hinv, by simp_all⟩)
    | (rename_i ih
       refine ih st' ⟨?_, ?_⟩ ?_ <;> simp_all)

/-- Invariant maintained by the `status` subparser: no conflicting pair
in either mutually exclusive group has been taken; the action dest only
ever holds the constants `'start'` or `'stop'`; the identifier dest holds
a value once a group member has been taken. -/
def statusInv (st : StatusSt) : Prop :=
  ¬(st.seenStart = true ∧ st.seenStop = true) ∧
  ¬(st.seenName = true ∧ st.seenUuid = true) ∧
  ((st.seenStart = true ∨ st.seenStop = true) →
    st.action = some "start" ∨ st.action = some "stop") ∧
  ((st.seenName = true ∨ st.seenUuid = true) → st.ident.isSome = true)

/-- A successful `status` subparser run preserves the invariant and, by
the two required-group checks, has taken one member of each group. -/
theorem statusAux_ok_inv (rest : List String) (st : StatusSt) :
    ∀ st', statusInv st → statusAux rest st = .ok st' →
      statusInv st' ∧ (st'.seenStart = true ∨ st'.seenStop = true) ∧
        (st'.seenName = true ∨ st'.seenUuid = true) := by
  induction rest, st using statusAux.induct
  all_goals intro st' hinv hok
  all_goals rw [statusAux.eq_def] at hok
  all_goals try simp [*] at hok
  all_goals first
    | (subst hok
       exact ⟨hinv, by simp_all⟩)
    | (rename_i ih
       refine ih st' ⟨?_, ?_, ?_, ?_⟩ ?_ <;> simp_all [statusInv])

/-- A successful `create` subparser run has a name value: the final
required-action check demands it. -/
theorem createAux_ok_name (rest : List String) (st : CreateSt) :
    ∀ st', createAux rest st = .ok st' → st'.name.isSome = true := by
  induction rest, st using createAux.induct
  all_goals intro st' hok
  all_goals rw [createAux.eq_def] at hok
  all_goals try simp [*] at hok
  all_goals first
    | (subst hok; simp_all)
    | (rename_i ih
       refine ih st' ?_ <;> simp_all)

/-- Inversion of a successful parse of a `delete` command: the first
token was the subcommand name and the namespace is the final subparser
state's dest. -/
theorem parse_ok_delete {argv : List String} {a : DeleteArgs}
    (h : parse argv = .ok (.delete a)) :
    ∃ rest st, argv = "delete" :: rest ∧ deleteAux rest deleteSt0 = .ok st ∧
      a = ⟨st.ident⟩ := by
  cases argv with
  | nil => simp [parse] at h
  | cons t rest =>
    simp only [parse] at h
    split_ifs at h with h1 h2 h3 h4 h5
    · cases hc : createAux rest createSt0 <;> simp [liftCreate, hc] at h
    · cases hd : deleteAux rest deleteSt0 with
      | ok st =>
        refine ⟨rest, st, by rw [h3], hd, ?_⟩
        simp [liftDelete, hd] at h
        cases a
        simp_all
      | usage => simp [liftDelete, hd] at h
      | help => simp [liftDelete, hd] at h
    · cases hi : infoAux rest infoSt0 <;> simp [liftInfo, hi] at h
    · cases hs : statusAux rest statusSt0 <;> simp [liftStatus, hs] at h

/-- Inversion of a successful parse of a `status` command. -/
theorem parse_ok_status {argv : List String} {a : StatusArgs}
    (h : parse argv = .ok (.status a)) :
    ∃ rest st, argv = "status" :: rest ∧ statusAux rest statusSt0 = .ok st ∧
      a = ⟨st.action, st.ident⟩ := by
  cases argv with
  | nil => simp [parse] at h
  | cons t rest =>
    simp only [parse] at h
    split_ifs at h with h1 h2 h3 h4 h5
    · cases hc : createAux rest createSt0 <;> simp [liftCreate, hc] at h
    · cases hd : deleteAux rest deleteSt0 <;> simp [liftDelete, hd] at h
    · cases hi : infoAux rest infoSt0 <;> simp [liftInfo, hi] at h
    · cases hs : statusAux rest statusSt0 with
      | ok st =>
        refine ⟨rest, st, by rw [h5], hs, ?_⟩
        simp [liftStatus, hs] at h
        cases a
        simp_all
      | usage => simp [liftStatus, hs] at h
      | help => simp [liftStatus, hs] at h

/-! ## The claims -/

/-- Formalisation of claim C2 exactly as stated: whenever the external
process runs, the dispatcher's exit status equals the external process's
exit status (including non-zero exits), and validation failures exit with
a fixed non-zero usage code.  (Definition written from the claim's words,
to be compared against the code's behaviour.) -/
def mirrorsExitStatus : Prop :=
  (∀ (argv : List String) (ext : List String → Nat) (cmd : List String),
    main_model argv = .run cmd → exitCode (main_model argv) ext = ext cmd) ∧
  (∀ (argv : List String) (ext : List String → Nat),
    main_model argv = .usage → exitCode (main_model argv) ext ≠ 0)

/-- C2 (claim as stated) is false: `check=True` turns a non-zero external
exit into an uncaught `CalledProcessError`, so Python exits with the
generic code 1, not the external code.  Concretely, `info` spawns
`vboxmanage list vms`; if the external tool exits 5 the dispatcher exits
1 ≠ 5. -/
theorem c2_counterexample : ¬ mirrorsExitStatus := by
  intro h
  have h2 := h.1 ["info"] (fun _ => 5) ["vboxmanage", "list", "vms"] rfl
  exact absurd h2 (by decide)

/-- C2 (amended): when the external process runs, the dispatcher exits 0
if the external process exits 0 and exits 1 (uncaught
`CalledProcessError`) on any non-zero external exit — the non-zero code
is not mirrored; when argument validation fails the dispatcher exits
with the fixed argparse usage code 2 before any process is spawned. -/
theorem c2_amended (argv : List String) (ext : List String → Nat) (cmd : List String) :
    (main_model argv = .run cmd →
      exitCode (main_model argv) ext = if ext cmd = 0 then 0 else 1) ∧
    (main_model argv = .usage → exitCode (main_model argv) ext = 2) := by
  constructor
  · intro h; rw [h]; rfl
  · intro h; rw [h]; rfl

/-- Witness for C2 (amended): the `info` invocation with a succeeding
external tool exits 0. -/
theorem c2_amended_witness : exitCode (main_model ["info"]) (fun _ => 0) = 0 := by
  have h := (c2_amended ["info"] (fun _ => 0) ["vboxmanage", "list", "vms"]).1 rfl
  simpa using h

/-- C3 (code bug, supporting evaluation): with no arguments at all,
`parse_args` succeeds (the subparsers argument is not required, so no
usage error is raised) and `main` then crashes with an uncaught
`IndexError` reading `sys.argv[1]`, exiting 1 with a traceback instead of
a usage message with the usage exit code 2. -/
theorem c3_code :
    parse [] = .ok .noSubcommand ∧
      main_model [] = .indexErrorCrash ∧
      (∀ ext : List String → Nat, exitCode (main_model []) ext = 1) ∧
      (∀ ext : List String → Nat, exitCode (main_model []) ext ≠ 2) :=
  ⟨rfl, rfl, fun _ => rfl, fun _ => by show (1 : Nat) ≠ 2; decide⟩

/-- C4: for `delete` and `status`, supplying both of `--name`/`--uuid`
(the mutually exclusive group rejects the second), or supplying neither
(the required group check fails), is an argparse usage error, and the
outcome is `usage` — no external process is spawned. -/
theorem c4 :
    (∀ v w : String, main_model ["delete", "--name", v, "--uuid", w] = .usage) ∧
      main_model ["delete"] = .usage ∧
      (∀ v w : String, main_model ["status", "--start", "--name", v, "--uuid", w] = .usage) ∧
      main_model ["status", "--start"] = .usage ∧
      main_model ["status", "--stop"] = .usage := by
  refine ⟨?_, rfl, ?_, rfl, rfl⟩
  · intro v w
    cases hv : optionLike v <;> cases hw : optionLike w <;>
      simp [main_model, parse, deleteAux, liftDelete, isHelp, hv, hw]
  · intro v w
    cases hv : optionLike v <;> cases hw : optionLike w <;>
      simp [main_model, parse, statusAux, liftStatus, isHelp, hv, hw]

/-- C6: the `info` dispatch builds `[tool, "list", "vms"]` when no
identifier is supplied and `[tool, "showvminfo", "--details", identifier]`
when one is, shown both on the namespace and end to end. -/
theorem c6 :
    (∀ i : String, opt_info ⟨some i⟩ = .run ["vboxmanage", "showvminfo", "--details", i]) ∧
      opt_info ⟨none⟩ = .run ["vboxmanage", "list", "vms"] ∧
      main_model ["info"] = .run ["vboxmanage", "list", "vms"] ∧
      main_model ["info", "--name", "foo"]
        = .run ["vboxmanage", "showvminfo", "--details", "foo"] ∧
      main_model ["info", "--uuid", "1234"]
        = .run ["vboxmanage", "showvminfo", "--details", "1234"] :=
  ⟨fun _ => rfl, rfl, rfl, rfl, rfl⟩

/-- C5: every parse-accepted `status` command carries an identifier and an
action that is one of the two constants, and the dispatch spawns exactly
`[tool, "startvm", identifier, "--type", "headless"]` for start and
`[tool, "controlvm", identifier, "poweroff"]` for stop; shown also end to
end on the spec's own examples. -/
theorem c5 :
    (∀ argv a, parse argv = .ok (.status a) →
      ∃ i, a.vbox_vm_identifier = some i ∧
        (a.vbox_vm_action = some "start" ∨ a.vbox_vm_action = some "stop") ∧
        (a.vbox_vm_action = some "start" →
          opt_status a = .run ["vboxmanage", "startvm", i, "--type", "headless"]) ∧
        (a.vbox_vm_action = some "stop" →
          opt_status a = .run ["vboxmanage", "controlvm", i, "poweroff"])) ∧
      main_model ["status", "--start", "--name", "vm1"]
        = .run ["vboxmanage", "startvm", "vm1", "--type", "headless"] ∧
      main_model ["status", "--stop", "--uuid", "abc-123"]
        = .run ["vboxmanage", "controlvm", "abc-123", "poweroff"] := by
  refine ⟨?_, rfl, rfl⟩
  intro argv a h
  obtain ⟨rest, st, -, hok, ha⟩ := parse_ok_status h
  obtain ⟨⟨-, -, hA, hI⟩, hact, hid⟩ :=
    statusAux_ok_inv rest statusSt0 st (by simp [statusInv, statusSt0]) hok
  obtain ⟨i, hi⟩ := Option.isSome_iff_exists.mp (hI hid)
  subst ha
  refine ⟨i, by simpa using hi, hA hact, ?_, ?_⟩
  · intro hstart
    simp only [StatusArgs.vbox_vm_action] at hstart
    simp [opt_status, hstart, hi, startvm_argv]
  · intro hstop
    simp only [StatusArgs.vbox_vm_action] at hstop
    simp [opt_status, hstop, hi, controlvm_argv]

/-- Witness for C5 at the concrete command `status --start --name vm1`. -/
theorem c5_witness :
    ∃ i, (some "vm1" : Option String) = some i ∧
      ((some "start" : Option String) = some "start" ∨
        (some "start" : Option String) = some "stop") ∧
      ((some "start" : Option String) = some "start" →
        opt_status ⟨some "start", some "vm1"⟩
          = .run ["vboxmanage", "startvm", i, "--type", "headless"]) ∧
      ((some "start" : Option String) = some "stop" →
        opt_status ⟨some "start", some "vm1"⟩
          = .run ["vboxmanage", "controlvm", i, "poweroff"]) :=
  c5.1 ["status", "--start", "--name", "vm1"] ⟨some "start", some "vm1"⟩ rfl

/-- C7: every parse-accepted `delete` command carries an identifier, and
the dispatch spawns exactly `[tool, "unregistervm", "--delete",
identifier]`; shown also end to end for both identification forms. -/
theorem c7 :
    (∀ argv a, parse argv = .ok (.delete a) →
      ∃ i, a.vbox_vm_identifier = some i ∧
        opt_delete a = .run ["vboxmanage", "unregistervm", "--delete", i]) ∧
      main_model ["delete", "--uuid", "1234-abcd"]
        = .run ["vboxmanage", "unregistervm", "--delete", "1234-abcd"] ∧
      main_model ["delete", "--name", "vm1"]
        = .run ["vboxmanage", "unregistervm", "--delete", "vm1"] := by
  refine ⟨?_, rfl, rfl⟩
  intro argv a h
  obtain ⟨rest, st, -, hok, ha⟩ := parse_ok_delete h
  obtain ⟨⟨-, hI⟩, hseen⟩ := deleteAux_ok_inv rest deleteSt0 st (by simp [deleteInv, deleteSt0]) hok
  obtain ⟨i, hi⟩ := Option.isSome_iff_exists.mp (hI hseen)
  subst ha
  exact ⟨i, by simpa using hi, by simp [opt_delete, hi, delete_argv]⟩

/-- Witness for C7 at the concrete command `delete --name vm1`. -/
theorem c7_witness :
    ∃ i, (some "vm1" : Option String) = some i ∧
      opt_delete ⟨some "vm1"⟩ = .run ["vboxmanage", "unregistervm", "--delete", i] :=
  c7.1 ["delete", "--name", "vm1"] ⟨some "vm1"⟩ rfl

/-- Formalisation of claim C8 exactly as stated: every parse-accepted
`delete`/`status` command has a non-empty identifier and every accepted
`create` command has a non-empty name.  (Definition written from the
claim's words, to be compared against the code's behaviour.) -/
def identifiersNonEmpty : Prop :=
  (∀ argv a, parse argv = .ok (.delete a) →
    ∃ i, a.vbox_vm_identifier = some i ∧ i ≠ "") ∧
  (∀ argv a, parse argv = .ok (.status a) →
    ∃ i, a.vbox_vm_identifier = some i ∧ i ≠ "") ∧
  (∀ argv a, parse argv = .ok (.create a) →
    ∃ nm, a.vbox_vm_name = some nm ∧ nm ≠ "")

/-- C8 (claim as stated) is false: argparse accepts the empty string as
an option value, so `delete --name ''` parses successfully with the
identifier equal to the empty string — nothing enforces non-emptiness. -/
theorem c8_counterexample : ¬ identifiersNonEmpty := by
  intro h
  obtain ⟨i, hi, hne⟩ := h.1 ["delete", "--name", ""] ⟨some ""⟩ rfl
  exact hne (Option.some.inj hi).symm

/-- C8 (amended): for every parse-accepted `delete` or `status` command
exactly one identification form (`--name` or `--uuid`) was chosen and an
identifier value is present (it may be the empty string — non-emptiness
is not enforced); for every accepted `create` command a name value is
present (it may be empty). -/
theorem c8_amended :
    (∀ rest st, deleteAux rest deleteSt0 = .ok st →
      ((st.seenName = true ∧ st.seenUuid = false) ∨
        (st.seenName = false ∧ st.seenUuid = true)) ∧ st.ident.isSome = true) ∧
    (∀ rest st, statusAux rest statusSt0 = .ok st →
      ((st.seenName = true ∧ st.seenUuid = false) ∨
        (st.seenName = false ∧ st.seenUuid = true)) ∧ st.ident.isSome = true) ∧
    (∀ rest st, createAux rest createSt0 = .ok st → st.name.isSome = true) := by
  refine ⟨?_, ?_, ?_⟩
  · intro rest st hok
    obtain ⟨⟨hno, hI⟩, hseen⟩ := deleteAux_ok_inv rest deleteSt0 st (by simp [deleteInv, deleteSt0]) hok
    refine ⟨?_, hI hseen⟩
    cases hn : st.seenName <;> cases hu : st.seenUuid <;> simp_all
  · intro rest st hok
    obtain ⟨⟨-, hno, -, hI⟩, -, hid⟩ :=
      statusAux_ok_inv rest statusSt0 st (by simp [statusInv, statusSt0]) hok
    refine ⟨?_, hI hid⟩
    cases hn : st.seenName <;> cases hu : st.seenUuid <;> simp_all
  · intro rest st hok
    exact createAux_ok_name rest createSt0 st hok

/-- Witness for C8 (amended) at the concrete command `delete --name x`. -/
theorem c8_amended_witness :
    (((true = true ∧ false = false) ∨ (true = false ∧ false = true)) ∧
      (some "x" : Option String).isSome = true) :=
  c8_amended.1 ["--name", "x"] ⟨some "x", true, false⟩ rfl

/-- C9: `opt_create` concatenates the supplied values into one command
string and splits it on whitespace, so no element of the built list ever
contains whitespace — a value containing whitespace is forwarded as
several separate elements (shown concretely for the name `'a b'`) —
whereas `delete`, `info` and `status` forward the identifier as a single
list element verbatim, whatever it contains. -/
theorem c9 :
    (∀ (n : String) (g o : Option String), ∀ s ∈ opt_create_argv n g o,
      ∀ c ∈ s.data, wsChar c = false) ∧
      parse ["create", "--name", "a b"] = .ok (.create ⟨some "a b", none, none⟩) ∧
      opt_create_argv "a b" none none
        = ["vboxmanage", "createvm", "--register", "--name", "a", "b"] ∧
      (∀ i : String, i ∈ delete_argv i ∧ i ∈ info_argv (some i) ∧
        i ∈ startvm_argv i ∧ i ∈ controlvm_argv i) := by
  refine ⟨?_, rfl, rfl, ?_⟩
  · intro n g o s hs
    exact mem_tokensAux_no_ws (create_cmd_str n g o).data [] (by simp) s hs
  · intro i
    refine ⟨?_, ?_, ?_, ?_⟩ <;>
      simp [delete_argv, info_argv, startvm_argv, controlvm_argv]

/-- Witness for C9: the element `'a'` of the split invocation for the
whitespace-containing name `'a b'` is whitespace-free. -/
theorem c9_witness :
    ("a" ∈ opt_create_argv "a b" none none) ∧
      (∀ c ∈ ("a" : String).data, wsChar c = false) :=
  ⟨by decide, c9.1 "a b" none none "a" (by decide)⟩

/-- C10: the `status` subparser only ever stores the constants `'start'`
or `'stop'` into the action dest, so on every parse-accepted `status`
namespace the `opt_status` fallback branch that prints the
`'//TODO: proper error handling'` placeholder is unreachable. -/
theorem c10 :
    ∀ rest st, statusAux rest statusSt0 = .ok st →
      (st.action = some "start" ∨ st.action = some "stop") ∧
        opt_status ⟨st.action, st.ident⟩ ≠ .todoPrint := by
  intro rest st hok
  obtain ⟨⟨-, -, hA, -⟩, hact, -⟩ :=
    statusAux_ok_inv rest statusSt0 st (by simp [statusInv, statusSt0]) hok
  refine ⟨hA hact, ?_⟩
  rcases hA hact with h | h <;> cases hid : st.ident <;> simp [opt_status, h]

/-- Witness for C10 at the concrete command `status --start --name x`. -/
theorem c10_witness :
    ((some "start" : Option String) = some "start" ∨
      (some "start" : Option String) = some "stop") ∧
      opt_status ⟨some "start", some "x"⟩ ≠ .todoPrint :=
  c10 ["--start", "--name", "x"] ⟨some "start", some "x", true, false, true, false⟩ rfl
